import Mathlib

/-!
Verification of the RCQA task adapter (`lm_eval/tasks/ja/rcqa.py`).

The adapter formats dataset records into prompts under one of four template
variants, constructs generation requests with a stop sequence and an optional
dynamic max-token bound, and packages model outputs for an external
exact-match/F1 metric. All definitions below are shallow embeddings of the
Python source: strings stay strings, lists stay lists, the Python `assert`
and the tuple-unpacking failure mode become `Except`.
-/

namespace RCQASpec

/-- A context document of a record: a title and a body text
(fields `title` and `text` of each element of `doc["documents"]`). -/
structure Document where
  title : String
  text : String
deriving Repr, DecidableEq

/-- One dataset record: a list of candidate context documents, a question,
the gold answer, and the identifier fields `qid` and `id` used by
`process_results` and `test_docs` respectively. -/
structure Doc where
  documents : List Document
  question : String
  answer : String
  qid : String
  id : String
deriving Repr, DecidableEq

/-- The four template variants: the base `RCQA` class and its three
subclasses `RCQAWithFintanPrompt`, `RCQAWithJAAlpacaPrompt`,
`RCQAWithRinnaInstructionSFT`. -/
inductive Variant where
  | rcqa
  | fintan
  | jaAlpaca
  | rinna
deriving Repr, DecidableEq

/-- `SEP` class attribute: `"\n"` everywhere except the Rinna variant,
which overrides it with `"<NL>"`. -/
def SEP : Variant → String
  | .rinna => "<NL>"
  | _ => "\n"

/-- `_TOP_K_LIMIT = 10`; every variant sets `TOP_K_LIMIT = _TOP_K_LIMIT`. -/
def TOP_K_LIMIT : Nat := 10

/-- `INSTRUCTION` attribute of `RCQAWithJAAlpacaPrompt`. -/
def INSTRUCTION : String := "与えられた文脈から、質問に対する答えを抜き出してください。"

/-- `doc_to_text` of each variant, translated clause by clause from the
source: each takes the first `TOP_K_LIMIT` documents, joins them with the
variant's `SEP`, and wraps question and context in the variant's fixed
template. -/
def doc_to_text (v : Variant) (doc : Doc) : String :=
  match v with
  | .rcqa =>
    let topk_documents := doc.documents.take TOP_K_LIMIT
    let context := String.intercalate (SEP .rcqa)
      (topk_documents.map (fun document =>
        "[題名]:" ++ document.title ++ SEP .rcqa ++ "[問題]:" ++ document.text))
    context ++ SEP .rcqa ++ "[質問]:" ++ doc.question ++ SEP .rcqa ++ "[答え]:"
  | .fintan =>
    let context := String.intercalate (SEP .fintan)
      ((doc.documents.take TOP_K_LIMIT).map (fun ctx => ctx.text))
    "文章:" ++ context ++ SEP .fintan ++ "質問:" ++ doc.question
      ++ SEP .fintan ++ "回答:"
  | .jaAlpaca =>
    let context := String.intercalate (SEP .jaAlpaca)
      ((doc.documents.take TOP_K_LIMIT).map (fun ctx => ctx.text))
    let input_text := "文脈：" ++ context ++ "\n" ++ "質問：" ++ doc.question
    "### 指示:\n" ++ INSTRUCTION ++ "\n\n### 入力:\n" ++ input_text
      ++ "\n\n### 応答:\n"
  | .rinna =>
    let context := String.intercalate (SEP .rinna)
      ((doc.documents.take TOP_K_LIMIT).map (fun ctx => ctx.text))
    let input_text := "文脈：" ++ context ++ SEP .rinna ++ "質問：" ++ doc.question
    "ユーザー: " ++ input_text ++ SEP .rinna ++ "システム: "

/-- `doc_to_target`, defined on `RCQA` and inherited unchanged by every
variant: returns `doc["answer"]`. -/
def doc_to_target (_v : Variant) (doc : Doc) : String :=
  doc.answer

/-- The fixed answer cue each variant's prompt ends with (the literal tail
of the corresponding `doc_to_text` template). -/
def answer_cue : Variant → String
  | .rcqa => "[答え]:"
  | .fintan => "回答:"
  | .jaAlpaca => "### 応答:\n"
  | .rinna => "システム: "

/-- The tokenizer the harness hands to the task, as `construct_requests`
observes it: whether `hasattr(tokenizer, "encode")` holds, whether
`"add_special_tokens"` occurs in `inspect.getfullargspec(encode).args`, and
the `encode` function itself. `encode`'s second argument records the
`add_special_tokens` keyword actually passed (`none` when the call passes no
keyword arguments). -/
structure Tokenizer where
  hasEncode : Bool
  acceptsAddSpecialTokens : Bool
  encode : String → Option Bool → List Nat

/-- The request `rf.greedy_until` receives: the context string, the list of
stop sequences, and the optional max-token bound (the third positional
argument, absent in the first branch). -/
structure Request where
  ctx : String
  stop : List String
  max_num_tokens : Option Nat
deriving DecidableEq

/-- Python `str.lower()`, modelled character-wise (the environment values
compared against, `"false"`/`"true"`, are ASCII, where this agrees with
Python's Unicode lowering). -/
def py_lower (s : String) : String :=
  String.mk (s.data.map Char.toLower)

/-- `DYNAMIC_MAX_LENGTH = os.getenv("DYNAMIC_MAX_LENGTH", "true").lower()`:
the environment value (or the default `"true"`) lower-cased. -/
def DYNAMIC_MAX_LENGTH (env : Option String) : String :=
  py_lower (env.getD "true")

/-- `construct_requests`, with the module-level `DYNAMIC_MAX_LENGTH` string
and the tokenizer passed explicitly. The first branch fires when the mode
string equals `"false"` or the tokenizer lacks `encode`; otherwise the gold
answer is encoded (with `add_special_tokens=False` exactly when the
signature accepts that keyword) and its token count passed as the bound. -/
def construct_requests (dynamic_max_length : String) (tokenizer : Tokenizer)
    (v : Variant) (doc : Doc) (ctx : String) : Request :=
  if dynamic_max_length = "false" ∨ tokenizer.hasEncode = false then
    { ctx := ctx, stop := [SEP v], max_num_tokens := none }
  else
    let encode_params : Option Bool :=
      if tokenizer.acceptsAddSpecialTokens then some false else none
    let max_num_tokens := (tokenizer.encode doc.answer encode_params).length
    { ctx := ctx, stop := [SEP v], max_num_tokens := some max_num_tokens }

/-- The prediction dictionary built by `process_results`. -/
structure Prediction where
  id : String
  prediction_text : String
deriving Repr, DecidableEq

/-- The `gold` dictionary: the answer wrapped in a one-element list, with
the placeholder `answer_start` value `[-1]`. -/
structure Gold where
  text : List String
  answer_start : List Int
deriving Repr, DecidableEq

/-- The reference dictionary built by `process_results`. -/
structure Reference where
  id : String
  answers : Gold
deriving Repr, DecidableEq

/-- The dictionary `process_results` returns: the pair stored under
`"exact_match"` and the pair stored under `"f1"`. -/
structure ProcessedResult where
  exact_match : Prediction × Reference
  f1 : Prediction × Reference
deriving Repr, DecidableEq

/-- `process_results`: the `assert len(results) == 1` becomes the `Except`
error; on a singleton list the prediction/reference pairs are built from
`doc["qid"]`, the single continuation, and `doc["answer"]`. -/
def process_results (doc : Doc) (results : List String) :
    Except String ProcessedResult :=
  match results with
  | [continuation] =>
    let predictions : Prediction := { id := doc.qid, prediction_text := continuation }
    let gold : Gold := { text := [doc.answer], answer_start := [-1] }
    let references : Reference := { id := doc.qid, answers := gold }
    .ok { exact_match := (predictions, references), f1 := (predictions, references) }
  | _ => .error "results should be a list with 1 str element"

/-- `_squad_agg`, with the external metric's `compute` (composed with the
`[key]` lookup) abstracted as a function argument. The Python line
`predictions, references = zip(*item)` unpacks `zip(*item)` into exactly two
variables; on an empty item list `zip()` yields no tuples and the unpacking
raises `ValueError`, modelled as the error branch. On a nonempty list of
pairs it yields the tuple of first components and the tuple of second
components, i.e. `item.unzip`. -/
def squad_agg {α : Type} (compute : List Prediction → List Reference → String → α)
    (key : String) (item : List (Prediction × Reference)) : Except String α :=
  match item with
  | [] => .error "not enough values to unpack (expected 2, got 0)"
  | _ :: _ =>
    let pr := item.unzip
    .ok (compute pr.1 pr.2 key)

/-- `training_docs`: returns `self.dataset["train"]` unchanged (the
`REMOVE_IDS` attribute is not consulted). -/
def training_docs (_REMOVE_IDS : List String) (dataset_train : List Doc) : List Doc :=
  dataset_train

/-- `test_docs`: when `len(REMOVE_IDS) > 0`, keeps exactly the items whose
`id` is not in `REMOVE_IDS`; otherwise returns the split as is. -/
def test_docs (REMOVE_IDS : List String) (dataset_test : List Doc) : List Doc :=
  if 0 < REMOVE_IDS.length then
    dataset_test.filter (fun item => !(REMOVE_IDS.contains item.id))
  else
    dataset_test

end RCQASpec

namespace RCQASpec

/-- A concrete record used to instantiate theorems with hypotheses. -/
def sample_doc : Doc :=
  { documents := [{ title := "日本の首都", text := "東京は日本の首都です。" }],
    question := "日本の首都はどこですか。", answer := "東京", qid := "q1", id := "x" }

/-- A concrete tokenizer (with `encode` and an `add_special_tokens`
keyword) used to instantiate theorems with hypotheses. -/
def sample_tokenizer : Tokenizer :=
  { hasEncode := true, acceptsAddSpecialTokens := true,
    encode := fun s _ => List.replicate s.length 0 }

/-- A concrete prediction/reference pair used to instantiate theorems with
hypotheses. -/
def sample_pair : Prediction × Reference :=
  ({ id := "q1", prediction_text := "東京" },
   { id := "q1", answers := { text := ["東京"], answer_start := [-1] } })

/-- An appended string of the shape `((x ++ q) ++ c) ++ d` has `q` as a
substring. -/
lemma append_mid_shape1 (x q c d : String) :
    ∃ p s, ((x ++ q) ++ c) ++ d = p ++ q ++ s :=
  ⟨x, c ++ d, by simp [String.append_assoc]⟩

/-- An appended string of the shape `(a ++ (y ++ q)) ++ b` has `q` as a
substring. -/
lemma append_mid_shape2 (a y q b : String) :
    ∃ p s, (a ++ (y ++ q)) ++ b = p ++ q ++ s :=
  ⟨a ++ y, b, by simp [String.append_assoc]⟩

/-- An appended string of the shape `((a ++ (y ++ q)) ++ c) ++ d` has `q`
as a substring. -/
lemma append_mid_shape3 (a y q c d : String) :
    ∃ p s, ((a ++ (y ++ q)) ++ c) ++ d = p ++ q ++ s :=
  ⟨a ++ y, c ++ d, by simp [String.append_assoc]⟩

/-- C1: for a record with gold answer "東京" and exactly one context
document titled "日本の首都" with body "東京は日本の首都です。", the
default template (`RCQA.doc_to_text`, separator `"\n"`) returns exactly
`"[題名]:日本の首都\n[問題]:東京は日本の首都です。\n[質問]:" ++ q ++ "\n[答え]:"`
for any question `q` (and any identifier fields). -/
theorem default_template_concrete_prompt (q qid id0 : String) :
    doc_to_text .rcqa
      { documents := [{ title := "日本の首都", text := "東京は日本の首都です。" }],
        question := q, answer := "東京", qid := qid, id := id0 }
      = "[題名]:日本の首都\n[問題]:東京は日本の首都です。\n[質問]:" ++ q ++ "\n[答え]:" := by
  simp only [doc_to_text, SEP, TOP_K_LIMIT, List.take, List.map,
    String.intercalate, String.intercalate.go]
  rw [String.append_assoc]
  exact rfl

/-- C2: for every record and every template variant, the prompt depends
only on the first `TOP_K_LIMIT` context documents (documents beyond the cap
are dropped, with `doc_to_text` remaining a total function), the list of
documents used has length at most `TOP_K_LIMIT`, and the cap defaults
to 10. -/
theorem prompt_uses_at_most_top_k_documents (v : Variant) (doc : Doc) :
    doc_to_text v doc
      = doc_to_text v { doc with documents := doc.documents.take TOP_K_LIMIT }
    ∧ (doc.documents.take TOP_K_LIMIT).length ≤ TOP_K_LIMIT
    ∧ TOP_K_LIMIT = 10 := by
  refine ⟨?_, List.length_take_le _ _, rfl⟩
  cases v <;> simp [doc_to_text, List.take_take]

/-- C3: for every record and every template variant, the formatted prompt
contains the record's question as a substring and ends with the variant's
fixed answer cue (`"[答え]:"`, `"回答:"`, `"### 応答:\n"`, `"システム: "`
respectively). -/
theorem prompt_contains_question_and_ends_with_cue (v : Variant) (doc : Doc) :
    (∃ p s, doc_to_text v doc = p ++ doc.question ++ s)
    ∧ (∃ p, doc_to_text v doc = p ++ answer_cue v) := by
  cases v
  case rcqa =>
    refine ⟨?_, ⟨_, rfl⟩⟩
    simp only [doc_to_text]
    exact append_mid_shape1 _ _ _ _
  case fintan =>
    refine ⟨?_, ⟨_, rfl⟩⟩
    simp only [doc_to_text]
    exact append_mid_shape1 _ _ _ _
  case jaAlpaca =>
    constructor
    · simp only [doc_to_text]
      exact append_mid_shape2 _ _ _ _
    · refine ⟨("### 指示:\n" ++ INSTRUCTION ++ "\n\n### 入力:\n"
        ++ ("文脈：" ++ String.intercalate (SEP .jaAlpaca)
            ((doc.documents.take TOP_K_LIMIT).map (fun ctx => ctx.text))
          ++ "\n" ++ "質問：" ++ doc.question)) ++ "\n\n", ?_⟩
      simp only [doc_to_text, answer_cue]
      simp [String.append_assoc]
  case rinna =>
    refine ⟨?_, ⟨_, rfl⟩⟩
    simp only [doc_to_text]
    exact append_mid_shape3 _ _ _ _ _

/-- C4: `process_results` returns normally if and only if the results list
has length exactly one; any other length (in particular two outputs) yields
the descriptive assertion error instead of silently picking an element. -/
theorem process_results_ok_iff_single_result (doc : Doc) (results : List String) :
    ((∃ r, process_results doc results = .ok r) ↔ results.length = 1)
    ∧ (results.length ≠ 1 →
        process_results doc results = .error "results should be a list with 1 str element") := by
  match results with
  | [] => simp [process_results]
  | [c] => simp [process_results]
  | a :: b :: t => simp [process_results]

/-- Witness for C4: on the sample record, one output string is accepted and
two output strings raise the assertion error. -/
theorem process_results_ok_iff_single_result_witness :
    (∃ r, process_results sample_doc ["東京"] = .ok r)
    ∧ process_results sample_doc ["東", "京"]
        = .error "results should be a list with 1 str element" :=
  ⟨(process_results_ok_iff_single_result sample_doc ["東京"]).1.mpr rfl,
   (process_results_ok_iff_single_result sample_doc ["東", "京"]).2 (by decide)⟩

/-- C5: when the lower-cased `DYNAMIC_MAX_LENGTH` setting is not `"false"`
and the tokenizer has `encode`, `construct_requests` passes a max length
equal to the token count of the encoded gold answer, passing
`add_special_tokens=False` exactly when the `encode` signature accepts that
keyword; when the mode is `"false"` or `encode` is absent, no max length is
passed; and the default (no environment value) enables the mode. -/
theorem construct_requests_max_length_spec (env : Option String)
    (tokenizer : Tokenizer) (v : Variant) (doc : Doc) (ctx : String) :
    (DYNAMIC_MAX_LENGTH env ≠ "false" → tokenizer.hasEncode = true →
      construct_requests (DYNAMIC_MAX_LENGTH env) tokenizer v doc ctx =
        { ctx := ctx, stop := [SEP v],
          max_num_tokens := some ((tokenizer.encode doc.answer
            (if tokenizer.acceptsAddSpecialTokens then some false else none)).length) })
    ∧ ((DYNAMIC_MAX_LENGTH env = "false" ∨ tokenizer.hasEncode = false) →
      (construct_requests (DYNAMIC_MAX_LENGTH env) tokenizer v doc ctx).max_num_tokens
        = none)
    ∧ DYNAMIC_MAX_LENGTH none = "true" := by
  refine ⟨?_, ?_, rfl⟩
  · intro h1 h2
    simp [construct_requests, h1, h2]
  · intro h
    rcases h with h | h <;> simp [construct_requests, h]

/-- Witness for C5: with the default environment and the sample tokenizer
the bound is the encoded answer's token count; with the environment set to
`"False"` no bound is passed. -/
theorem construct_requests_max_length_spec_witness :
    construct_requests (DYNAMIC_MAX_LENGTH none) sample_tokenizer .rcqa sample_doc "c" =
      { ctx := "c", stop := ["\n"],
        max_num_tokens := some ((sample_tokenizer.encode sample_doc.answer
          (if sample_tokenizer.acceptsAddSpecialTokens then some false else none)).length) }
    ∧ (construct_requests (DYNAMIC_MAX_LENGTH (some "False")) sample_tokenizer .rcqa
        sample_doc "c").max_num_tokens = none :=
  ⟨(construct_requests_max_length_spec none sample_tokenizer .rcqa sample_doc "c").1
      (by decide) rfl,
   (construct_requests_max_length_spec (some "False") sample_tokenizer .rcqa
      sample_doc "c").2.1 (Or.inl (by decide))⟩

/-- Counterexample for C6: aggregating the empty item list does not pass
the empty list through to the metric; the tuple unpacking of `zip(*item)`
fails first, so `squad_agg` raises (here with the concrete metric that
returns 0) before any metric call. -/
theorem squad_agg_empty_list_raises :
    squad_agg (fun _ _ _ => (0 : Nat)) "f1" []
      = .error "not enough values to unpack (expected 2, got 0)" := rfl

/-- C6 (amended): on an empty item list `squad_agg` raises the unpacking
error before the metric's `compute` is called; on any nonempty list the
unzipped predictions and references are passed through to `compute`. -/
theorem squad_agg_unpack_spec {α : Type}
    (compute : List Prediction → List Reference → String → α)
    (key : String) (item : List (Prediction × Reference)) :
    (item = [] →
      squad_agg compute key item = .error "not enough values to unpack (expected 2, got 0)")
    ∧ (item ≠ [] →
      squad_agg compute key item = .ok (compute item.unzip.1 item.unzip.2 key)) := by
  cases item <;> simp [squad_agg]

/-- Witness for C6's amended statement: the empty list errors, and a
one-pair list reaches the metric with the unzipped lists. -/
theorem squad_agg_unpack_spec_witness :
    squad_agg (fun _ _ _ => (0 : Nat)) "exact_match" []
      = .error "not enough values to unpack (expected 2, got 0)"
    ∧ squad_agg (fun p _ _ => p.length) "f1" [sample_pair]
      = .ok ([sample_pair].unzip.1.length) :=
  ⟨(squad_agg_unpack_spec (fun _ _ _ => (0 : Nat)) "exact_match" []).1 rfl,
   (squad_agg_unpack_spec (fun p _ _ => p.length) "f1" [sample_pair]).2 (by simp)⟩

/-- Counterexample for C7: the train split is not filtered: a training
record whose `id` is in `REMOVE_IDS` is still returned by `training_docs`. -/
theorem training_docs_not_filtered_counterexample :
    training_docs ["x"] [sample_doc] = [sample_doc]
    ∧ sample_doc.id ∈ ["x"] := ⟨rfl, by decide⟩

/-- C7 (amended): the test split is filtered by `REMOVE_IDS`: a record is
returned by `test_docs` if and only if it is in the split and its `id` is
not in the exclusion list, relative order is preserved (the result is
exactly `List.filter`), and an empty exclusion list returns the split
unchanged; the train split is returned unchanged regardless of
`REMOVE_IDS`. -/
theorem docs_filtering_spec (REMOVE_IDS : List String) (dataset : List Doc) :
    test_docs REMOVE_IDS dataset
      = dataset.filter (fun item => !(REMOVE_IDS.contains item.id))
    ∧ (∀ d, d ∈ test_docs REMOVE_IDS dataset ↔ d ∈ dataset ∧ d.id ∉ REMOVE_IDS)
    ∧ (REMOVE_IDS = [] → test_docs REMOVE_IDS dataset = dataset)
    ∧ training_docs REMOVE_IDS dataset = dataset := by
  have hfilter : test_docs REMOVE_IDS dataset
      = dataset.filter (fun item => !(REMOVE_IDS.contains item.id)) := by
    cases REMOVE_IDS <;> simp [test_docs]
  refine ⟨hfilter, ?_, ?_, rfl⟩
  · intro d
    rw [hfilter]
    simp [List.mem_filter]
  · intro h
    subst h
    simp [test_docs]

/-- Witness for C7's amended statement: an empty exclusion list leaves the
test split unchanged, the train split is unchanged even under a matching
exclusion, and the membership characterisation holds on the sample record. -/
theorem docs_filtering_spec_witness :
    test_docs [] [sample_doc] = [sample_doc]
    ∧ training_docs ["x"] [sample_doc] = [sample_doc]
    ∧ (sample_doc ∈ test_docs ["y"] [sample_doc] ↔ sample_doc ∈ [sample_doc]
        ∧ sample_doc.id ∉ ["y"]) :=
  ⟨(docs_filtering_spec [] [sample_doc]).2.2.1 rfl,
   (docs_filtering_spec ["x"] [sample_doc]).2.2.2,
   (docs_filtering_spec ["y"] [sample_doc]).2.1 sample_doc⟩

/-- C8: in every branch of `construct_requests` (mode on or off, tokenizer
with or without `encode`) the request's stop-sequence list is exactly
`[SEP]`, so it contains the variant's separator as its element. -/
theorem construct_requests_stop_contains_sep (dynamic_max_length : String)
    (tokenizer : Tokenizer) (v : Variant) (doc : Doc) (ctx : String) :
    (construct_requests dynamic_max_length tokenizer v doc ctx).stop = [SEP v]
    ∧ SEP v ∈ (construct_requests dynamic_max_length tokenizer v doc ctx).stop := by
  unfold construct_requests
  split <;> simp

/-- C9: for every record and single model output, `process_results` returns
the dictionary that maps both `"exact_match"` and `"f1"` to the identical
prediction/reference pair, built from the record's `qid`, the output as
prediction text, and the gold answer wrapped in a one-element list with
`answer_start = [-1]`. -/
theorem process_results_pair_shape (doc : Doc) (continuation : String) :
    process_results doc [continuation] =
      .ok { exact_match :=
              ({ id := doc.qid, prediction_text := continuation },
               { id := doc.qid, answers := { text := [doc.answer], answer_start := [-1] } }),
            f1 :=
              ({ id := doc.qid, prediction_text := continuation },
               { id := doc.qid, answers := { text := [doc.answer], answer_start := [-1] } }) }
    ∧ ∀ r, process_results doc [continuation] = .ok r → r.exact_match = r.f1 := by
  refine ⟨rfl, ?_⟩
  intro r hr
  cases hr
  rfl

/-- C10: for every record and every template variant, `doc_to_target`
returns the stored gold answer string exactly, with no normalisation,
trimming, or added text. -/
theorem doc_to_target_returns_answer (v : Variant) (doc : Doc) :
    doc_to_target v doc = doc.answer := rfl

end RCQASpec
